import Mathlib

/-!
Shallow embedding of the Majordomo Protocol worker (MDPW01, worker side).

The embedding follows the Go source: `mdWorker` carries the worker's
mutable fields, `receiveIter` is one iteration of the `for` loop inside
`Receive`, `reconnectToBroker`, `sendToBroker` and `cleanup` mirror the
helper methods, and `receiveRun` iterates `receiveIter` over a script of
transport observations.  Socket and logging effects are recorded as an
event trace; time is passed in explicitly at the three places the source
reads the clock during an iteration.
-/

namespace MajordomoWorker

/-- A wire frame: a byte string. -/
abbrev Frame := List Nat

/-- A multipart message: an ordered sequence of frames. -/
abbrev Message := List Frame

/-- Protocol identity frame, the bytes of the string `"MDPW01"`. -/
def MD_WORKER : Frame := [77, 68, 80, 87, 48, 49]

/-- Command byte of READY, `"\x01"`. -/
def MD_READY : Frame := [1]

/-- Command byte of REQUEST, `"\x02"`. -/
def MD_REQUEST : Frame := [2]

/-- Command byte of REPLY, `"\x03"`. -/
def MD_REPLY : Frame := [3]

/-- Command byte of HEARTBEAT, `"\x04"`. -/
def MD_HEARTBEAT : Frame := [4]

/-- Command byte of DISCONNECT, `"\x05"`. -/
def MD_DISCONNECT : Frame := [5]

/-- Severity of a log call in the source (logError / logWarn / logDebug). -/
inductive LogLevel where
  | error
  | warn
  | debug
deriving DecidableEq, Repr

/-- Observable effects of the worker, recorded as a trace.  A `send`
event records the full multipart wire message handed to
`socket.SendMessage` together with whether that send failed. -/
inductive Event where
  | log (lvl : LogLevel)
  | socketClose
  | socketOpen
  | sleep (d : Nat)
  | send (wire : Message) (failed : Bool)
  | contextTerm
deriving DecidableEq, Repr

/-- The worker's fields (`mdWorker` in the source).  `socketLive` models
`socket != nil`; durations and instants are naturals on one monotonic
clock. -/
structure mdWorker where
  serviceName : Frame
  heartbeat : Nat
  reconnect : Nat
  pollInterval : Nat
  maxLivenessCount : Int
  liveness : Int
  heartbeatAt : Nat
  socketLive : Bool
deriving DecidableEq, Repr

/-- The method `sendToBroker(command, serviceName, msg)`: builds
`[empty, "MDPW01", command]`, appends the service-name frame when it is
not nil, appends the body frames when they are not nil, performs the
send, then logs at debug severity.  The returned `Bool` is the error of
`SendMessage` (every caller in the source discards it). -/
def sendToBroker (command : Frame) (svcFrame : Option Frame) (body : Option Message)
    (sendFails : Bool) : List Event × Bool :=
  let m1 : Message := [[], MD_WORKER, command]
  let m2 : Message :=
    match svcFrame with
    | some s => m1 ++ [s]
    | none => m1
  let m3 : Message :=
    match body with
    | some ms => m2 ++ ms
    | none => m2
  ([Event.send m3 sendFails, Event.log LogLevel.debug], sendFails)

/-- The method `reconnectToBroker`: close the old socket if one exists, open and
connect a new DEALER socket (one `socketOpen` event), send READY with
the service name, reset liveness to `maxLivenessCount` and set the
heartbeat deadline to now plus `heartbeat`.  `nowR` is the value of
`time.Now()` during this call. -/
def reconnectToBroker (w : mdWorker) (nowR : Nat) (sendFails : Bool) :
    mdWorker × List Event :=
  let closeEvs : List Event := if w.socketLive then [Event.socketClose] else []
  let sendEvs := (sendToBroker MD_READY (some w.serviceName) none sendFails).1
  ({ w with
      socketLive := true
      liveness := w.maxLivenessCount
      heartbeatAt := nowR + w.heartbeat },
    closeEvs ++ [Event.log LogLevel.debug, Event.socketOpen, Event.log LogLevel.debug]
      ++ sendEvs)

/-- The method `cleanup`: close the socket if one exists, terminate the context,
log at debug severity.  The fields of the worker are not modified. -/
def cleanup (w : mdWorker) : List Event :=
  (if w.socketLive then [Event.socketClose] else [])
    ++ [Event.contextTerm, Event.log LogLevel.debug]

/-- The trailing heartbeat check of an iteration:
`if w.heartbeatAt.Before(time.Now()) { sendToBroker(MD_HEARTBEAT,nil,nil); w.heartbeatAt = time.Now().Add(w.heartbeat) }`.
`nowCheck` and `nowSet` are the two reads of the clock. -/
def heartbeatMaybe (w : mdWorker) (nowCheck nowSet : Nat) (sendFails : Bool) :
    mdWorker × List Event :=
  if w.heartbeatAt < nowCheck then
    ({ w with heartbeatAt := nowSet + w.heartbeat },
      (sendToBroker MD_HEARTBEAT none none sendFails).1)
  else (w, [])

/-- What one bounded poll of the socket observed. -/
inductive PollResult where
  | pollFailed
  | timeout
  | message (m : Message)
deriving DecidableEq, Repr

/-- The environment of one iteration of the `Receive` loop: whether the
non-blocking select finds the shutdown channel ready, what the poll
observed, the three clock reads, and whether `SendMessage` fails during
this iteration. -/
structure StepInput where
  shutdownReady : Bool
  poll : PollResult
  nowReconnect : Nat
  nowHbCheck : Nat
  nowHbSet : Nat
  sendFails : Bool
deriving DecidableEq, Repr

/-- The loop-carried state of `Receive`: the worker plus the named
return value `msg` (zero value: the empty message). -/
structure LoopState where
  w : mdWorker
  msg : Message
deriving DecidableEq, Repr

/-- How one iteration ends: `ret` models `return msg, err`, `cont`
models falling through to the next iteration, `panicked` models a Go
runtime panic (index out of range). -/
inductive StepOutcome where
  | ret (msg : Message) (err : Option String)
  | cont
  | panicked
deriving DecidableEq, Repr

/-- Frame `i` of a message.  The source indexes the Go slice directly;
`receiveIter` only consults this after the bounds it needs hold (an
out-of-range slice access is modelled as a panic outcome instead). -/
def frameAt (m : Message) (i : Nat) : Frame := m.getD i []

/-- One iteration of the `for` loop in `Receive`, translated clause by
clause from the source.  Note that the REQUEST arm evaluates `msg[5:]`
and `msg[3]`, which panics when the message has fewer than 5 frames,
and that a poll error or a short message skips the heartbeat check via
`continue`. -/
def receiveIter (action : Message → Message) (s : LoopState) (inp : StepInput) :
    LoopState × List Event × StepOutcome :=
  if inp.shutdownReady then
    (s, cleanup s.w, StepOutcome.ret s.msg (some "Graceful shutdown"))
  else
    match inp.poll with
    | PollResult.pollFailed => (s, [Event.log LogLevel.error], StepOutcome.cont)
    | PollResult.message m =>
      let s1 : LoopState := { s with msg := m }
      if m.length < 3 then
        (s1, [Event.log LogLevel.error], StepOutcome.cont)
      else
        let w1 : mdWorker := { s1.w with liveness := s1.w.maxLivenessCount }
        let cmd : Frame := frameAt m 2
        if cmd = MD_REQUEST then
          if m.length < 5 then
            ({ s1 with w := w1 }, [], StepOutcome.panicked)
          else
            let replyTo : Frame := frameAt m 3
            let actionResponse : Message := action (m.drop 5)
            let reply : Message := [] :: actionResponse
            let sendEvs := (sendToBroker MD_REPLY (some replyTo) (some reply) inp.sendFails).1
            ({ s1 with w := w1, msg := actionResponse },
              Event.log LogLevel.debug :: sendEvs,
              StepOutcome.ret actionResponse none)
        else
          let step1 : mdWorker × List Event :=
            if cmd = MD_DISCONNECT then
              let r := reconnectToBroker w1 inp.nowReconnect inp.sendFails
              (r.1, Event.log LogLevel.debug :: r.2)
            else
              (w1, [Event.log LogLevel.debug])
          let step2 := heartbeatMaybe step1.1 inp.nowHbCheck inp.nowHbSet inp.sendFails
          ({ s1 with w := step2.1 }, step1.2 ++ step2.2, StepOutcome.cont)
    | PollResult.timeout =>
      let w1 : mdWorker := { s.w with liveness := s.w.liveness - 1 }
      let step1 : mdWorker × List Event :=
        if w1.liveness ≤ 0 then
          let r := reconnectToBroker w1 inp.nowReconnect inp.sendFails
          (r.1, Event.log LogLevel.warn :: Event.sleep w1.reconnect :: r.2)
        else
          (w1, [])
      let step2 := heartbeatMaybe step1.1 inp.nowHbCheck inp.nowHbSet inp.sendFails
      ({ s with w := step2.1 }, step1.2 ++ step2.2, StepOutcome.cont)

/-- Result of running the loop against a finite script of inputs. -/
inductive RunResult where
  | returned (msg : Message) (err : Option String)
  | crashed
  | running
deriving DecidableEq, Repr

/-- Iterate `receiveIter` over a script of inputs, accumulating the
event trace, until the loop returns, panics, or the script runs out. -/
def receiveRun (action : Message → Message) :
    LoopState → List StepInput → LoopState × List Event × RunResult
  | s, [] => (s, [], RunResult.running)
  | s, inp :: rest =>
    let step := receiveIter action s inp
    match step.2.2 with
    | StepOutcome.ret m e => (step.1, step.2.1, RunResult.returned m e)
    | StepOutcome.panicked => (step.1, step.2.1, RunResult.crashed)
    | StepOutcome.cont =>
      let r := receiveRun action step.1 rest
      (r.1, step.2.1 ++ r.2.1, r.2.2)

/-- The constructor `newWorker`: build the worker with liveness 0 and no socket,
then immediately `reconnectToBroker`. -/
def newWorker (svc : Frame) (hb rdel pint : Nat) (mx : Int) (now0 : Nat)
    (sendFails : Bool) : mdWorker × List Event :=
  let w : mdWorker :=
    { serviceName := svc
      heartbeat := hb
      reconnect := rdel
      pollInterval := pint
      maxLivenessCount := mx
      liveness := 0
      heartbeatAt := 0
      socketLive := false }
  reconnectToBroker w now0 sendFails

/-- The full event trace of a constructed worker driven by a script. -/
def workerTrace (svc : Frame) (hb rdel pint : Nat) (mx : Int) (now0 : Nat)
    (sendFails : Bool) (action : Message → Message) (inps : List StepInput) :
    List Event :=
  let init := newWorker svc hb rdel pint mx now0 sendFails
  init.2 ++ (receiveRun action { w := init.1, msg := [] } inps).2.1

/-- Is the event a log call? -/
def isLog : Event → Bool
  | Event.log _ => true
  | _ => false

/-- Is the event a log call at error severity? -/
def isErrorLog : Event → Bool
  | Event.log LogLevel.error => true
  | _ => false

/-- Erase the failure flag of a send event (the part of the trace the
worker itself can observe, since every caller discards the send error). -/
def eraseFailed : Event → Event
  | Event.send wire _ => Event.send wire false
  | e => e

/-- The READY handshake message for a service. -/
def readyWire (svc : Frame) : Message := [[], MD_WORKER, MD_READY, svc]

/-- The outbound HEARTBEAT message. -/
def heartbeatWire : Message := [[], MD_WORKER, MD_HEARTBEAT]

/-- Is the event a send of the READY handshake for `svc`? -/
def isReadySend (svc : Frame) : Event → Bool
  | Event.send f _ => f == readyWire svc
  | _ => false

/-- Is the event a socket open? -/
def isOpenEvent : Event → Bool
  | Event.socketOpen => true
  | _ => false

/-- Is the event a socket close? -/
def isCloseEvent : Event → Bool
  | Event.socketClose => true
  | _ => false

/-- Is the event a sleep? -/
def isSleepEvent : Event → Bool
  | Event.sleep _ => true
  | _ => false

/-- Is the event a send? -/
def isSendEvent : Event → Bool
  | Event.send _ _ => true
  | _ => false

/-- Events that witness a reconnect: sleeps, socket opens and closes,
and READY sends for `svc`. -/
def reconnectTrace (svc : Frame) (e : Event) : Bool :=
  isSleepEvent e || isOpenEvent e || isCloseEvent e || isReadySend svc e

/-- Number of socket-open events in a trace. -/
def countOpens (evs : List Event) : Nat := evs.countP (fun e => isOpenEvent e)

/-- Number of READY sends for `svc` in a trace. -/
def countReady (svc : Frame) (evs : List Event) : Nat :=
  evs.countP (fun e => isReadySend svc e)

/-- Scanner state for the READY discipline: `some false` means the last
open socket has already produced its READY, `some true` means a socket
was just opened and its next outbound send must be the READY, `none`
means the discipline is violated. -/
def scanStep (svc : Frame) : Option Bool → Event → Option Bool
  | none, _ => none
  | some true, Event.send f _ => if f == readyWire svc then some false else none
  | some true, Event.socketOpen => none
  | some true, Event.socketClose => none
  | some true, _ => some true
  | some false, Event.socketOpen => some true
  | some false, Event.send f _ => if f == readyWire svc then none else some false
  | some false, _ => some false

/-- A trace respects the READY discipline when every socket open is
followed (before any other send, open or close) by exactly one READY
send carrying `svc`, and READY sends occur nowhere else. -/
def readyDiscipline (svc : Frame) (evs : List Event) : Bool :=
  evs.foldl (scanStep svc) (some false) == some false

/-- The echo handler used by the spec's literal scenarios. -/
def echoAction : Message → Message := fun m => m

/-- A concrete worker in the CONNECTED state (fresh connect,
`max_liveness = 3`). -/
def sampleWorker : mdWorker :=
  { serviceName := [115]
    heartbeat := 10
    reconnect := 5
    pollInterval := 2
    maxLivenessCount := 3
    liveness := 3
    heartbeatAt := 0
    socketLive := true }

/-- Loop state of `sampleWorker` at the top of `Receive`. -/
def sampleState : LoopState := { w := sampleWorker, msg := [] }

/-- A step input with a given poll observation, all clocks at 0, no
shutdown, sends succeeding. -/
def mkInput (p : PollResult) : StepInput :=
  { shutdownReady := false
    poll := p
    nowReconnect := 0
    nowHbCheck := 0
    nowHbSet := 0
    sendFails := false }


/-! Helper lemmas about the reconnect and heartbeat helpers. -/

@[simp] theorem hbMaybe_liveness (w : mdWorker) (a b : Nat) (f : Bool) :
    (heartbeatMaybe w a b f).1.liveness = w.liveness := by
  unfold heartbeatMaybe
  split <;> rfl

@[simp] theorem hbMaybe_maxLiveness (w : mdWorker) (a b : Nat) (f : Bool) :
    (heartbeatMaybe w a b f).1.maxLivenessCount = w.maxLivenessCount := by
  unfold heartbeatMaybe
  split <;> rfl

@[simp] theorem hbMaybe_socketLive (w : mdWorker) (a b : Nat) (f : Bool) :
    (heartbeatMaybe w a b f).1.socketLive = w.socketLive := by
  unfold heartbeatMaybe
  split <;> rfl

@[simp] theorem hbMaybe_serviceName (w : mdWorker) (a b : Nat) (f : Bool) :
    (heartbeatMaybe w a b f).1.serviceName = w.serviceName := by
  unfold heartbeatMaybe
  split <;> rfl

@[simp] theorem hbMaybe_reconnectDelay (w : mdWorker) (a b : Nat) (f : Bool) :
    (heartbeatMaybe w a b f).1.reconnect = w.reconnect := by
  unfold heartbeatMaybe
  split <;> rfl

@[simp] theorem hbMaybe_heartbeat (w : mdWorker) (a b : Nat) (f : Bool) :
    (heartbeatMaybe w a b f).1.heartbeat = w.heartbeat := by
  unfold heartbeatMaybe
  split <;> rfl

@[simp] theorem hbMaybe_events (w : mdWorker) (a b : Nat) (f : Bool) :
    (heartbeatMaybe w a b f).2 =
      if w.heartbeatAt < a then [Event.send heartbeatWire f, Event.log LogLevel.debug]
      else [] := by
  unfold heartbeatMaybe sendToBroker
  split <;> rfl

@[simp] theorem reconnect_fst (w : mdWorker) (n : Nat) (f : Bool) :
    (reconnectToBroker w n f).1 =
      { w with
          socketLive := true
          liveness := w.maxLivenessCount
          heartbeatAt := n + w.heartbeat } := rfl

theorem reconnect_events (w : mdWorker) (n : Nat) (f : Bool) :
    (reconnectToBroker w n f).2 =
      (if w.socketLive then [Event.socketClose] else [])
        ++ [Event.log LogLevel.debug, Event.socketOpen, Event.log LogLevel.debug,
            Event.send (readyWire w.serviceName) f, Event.log LogLevel.debug] := by
  unfold reconnectToBroker sendToBroker
  simp [readyWire]

/-- C1 (amended: at least 5 frames).  For every inbound message of at
least 5 frames whose command frame is REQUEST, `Receive` passes
`frames[5..]` to the handler, sends a REPLY whose frame 3 is the client
identity from frame 3 of the REQUEST, whose frame 4 is empty and whose
frames 5.. are the handler output, and returns the handler output with
a nil error. -/
theorem c1_request_reply (action : Message → Message) (s : LoopState) (inp : StepInput)
    (m : Message) (hsd : inp.shutdownReady = false) (hp : inp.poll = PollResult.message m)
    (hlen : 5 ≤ m.length) (hcmd : frameAt m 2 = MD_REQUEST) :
    receiveIter action s inp =
      ({ w := { s.w with liveness := s.w.maxLivenessCount }, msg := action (m.drop 5) },
        [Event.log LogLevel.debug,
         Event.send ([[], MD_WORKER, MD_REPLY, frameAt m 3, []] ++ action (m.drop 5))
           inp.sendFails,
         Event.log LogLevel.debug],
        StepOutcome.ret (action (m.drop 5)) none) := by
  have h3 : ¬ m.length < 3 := by omega
  have h5 : ¬ m.length < 5 := by omega
  simp [receiveIter, sendToBroker, hsd, hp, h3, h5, hcmd]

/-- A well-formed 6-frame REQUEST, as in scenario S1. -/
def c1RequestInput : StepInput :=
  mkInput (PollResult.message [[], MD_WORKER, MD_REQUEST, [67], [], [104]])

/-- Witness for `c1_request_reply` on scenario S1. -/
theorem c1_request_reply_witness :
    receiveIter echoAction sampleState c1RequestInput =
      ({ w := sampleWorker, msg := [[104]] },
        [Event.log LogLevel.debug,
         Event.send [[], MD_WORKER, MD_REPLY, [67], [], [104]] false,
         Event.log LogLevel.debug],
        StepOutcome.ret [[104]] none) := by
  have h := c1_request_reply echoAction sampleState c1RequestInput
      [[], MD_WORKER, MD_REQUEST, [67], [], [104]] rfl rfl (by decide) (by decide)
  rw [h]
  decide

/-- A REQUEST with exactly 3 frames: it passes the frame-count check. -/
def c1ShortInput : StepInput :=
  mkInput (PollResult.message [[], MD_WORKER, MD_REQUEST])

/-- C1 counterexample: a 3-frame REQUEST passes the `len >= 3` check
but the dispatch evaluates `msg[5:]`, which panics; no REPLY is sent
and nothing is returned to the caller, contradicting the claim for
messages of at least 3 frames. -/
theorem c1_short_request_counterexample :
    (receiveIter echoAction sampleState c1ShortInput).2.2 = StepOutcome.panicked
    ∧ (receiveIter echoAction sampleState c1ShortInput).2.1.filter isSendEvent = [] := by
  decide

/-- C2: any inbound message of at least 3 frames resets the liveness
counter to `max_liveness` no matter the command (including through a
DISCONNECT-triggered reconnect, and including the state at the point of
a REQUEST panic); a message of fewer than 3 frames leaves the worker
unchanged, produces only an error log, and is not dispatched. -/
theorem c2_liveness_reset (action : Message → Message) (s : LoopState) (inp : StepInput)
    (m : Message) (hsd : inp.shutdownReady = false) (hp : inp.poll = PollResult.message m) :
    ((receiveIter action s inp).1.w.liveness =
        if 3 ≤ m.length then s.w.maxLivenessCount else s.w.liveness)
    ∧ (m.length < 3 →
        (receiveIter action s inp).1.w = s.w
        ∧ (receiveIter action s inp).2.1 = [Event.log LogLevel.error]
        ∧ (receiveIter action s inp).2.2 = StepOutcome.cont) := by
  by_cases h3 : m.length < 3
  · have h3n : ¬ 3 ≤ m.length := by omega
    simp [receiveIter, hsd, hp, h3, h3n]
  · have h3y : 3 ≤ m.length := by omega
    refine ⟨?_, fun hlt => absurd hlt h3⟩
    rw [if_pos h3y]
    by_cases hc : frameAt m 2 = MD_REQUEST
    · by_cases h5 : m.length < 5
      · simp [receiveIter, hsd, hp, h3, hc, h5]
      · simp [receiveIter, hsd, hp, h3, hc, h5, sendToBroker]
    · by_cases hd : frameAt m 2 = MD_DISCONNECT
      · simp [receiveIter, hsd, hp, h3, hc, hd, MD_DISCONNECT, MD_REQUEST]
      · simp [receiveIter, hsd, hp, h3, hc, hd]

/-- Witness for `c2_liveness_reset`: a 3-frame HEARTBEAT resets the
liveness counter of a worker whose counter had decayed to 1. -/
theorem c2_liveness_reset_witness :
    (receiveIter echoAction
        { w := { sampleWorker with liveness := 1 }, msg := [] }
        (mkInput (PollResult.message [[], MD_WORKER, MD_HEARTBEAT]))).1.w.liveness = 3 := by
  have h := (c2_liveness_reset echoAction
      { w := { sampleWorker with liveness := 1 }, msg := [] }
      (mkInput (PollResult.message [[], MD_WORKER, MD_HEARTBEAT]))
      [[], MD_WORKER, MD_HEARTBEAT] rfl rfl).1
  rw [h]
  decide

/-- C6: dispatch of an inbound message panics exactly when the message
passed the frame-count validation with command REQUEST but has fewer
than 5 frames: REQUEST handling is total only under the unstated
precondition of at least 5 frames. -/
theorem c6_request_partiality (action : Message → Message) (s : LoopState) (inp : StepInput)
    (m : Message) (hsd : inp.shutdownReady = false) (hp : inp.poll = PollResult.message m) :
    (receiveIter action s inp).2.2 = StepOutcome.panicked ↔
      3 ≤ m.length ∧ frameAt m 2 = MD_REQUEST ∧ m.length < 5 := by
  by_cases h3 : m.length < 3
  · have h3n : ¬ 3 ≤ m.length := by omega
    simp [receiveIter, hsd, hp, h3, h3n]
  · have h3y : 3 ≤ m.length := by omega
    by_cases hc : frameAt m 2 = MD_REQUEST
    · by_cases h5 : m.length < 5
      · simp [receiveIter, hsd, hp, h3, hc, h5, h3y]
      · simp [receiveIter, hsd, hp, h3, hc, h5, sendToBroker]
    · simp [receiveIter, hsd, hp, h3, hc]

/-- A REQUEST with exactly 4 frames. -/
def c6Input : StepInput :=
  mkInput (PollResult.message [[], MD_WORKER, MD_REQUEST, [67]])

/-- Witness for `c6_request_partiality`: a 4-frame REQUEST panics. -/
theorem c6_request_partiality_witness :
    (receiveIter echoAction sampleState c6Input).2.2 = StepOutcome.panicked := by
  exact (c6_request_partiality echoAction sampleState c6Input
      [[], MD_WORKER, MD_REQUEST, [67]] rfl rfl).mpr (by decide)



/-! Facts about which events count as reconnect evidence. -/

@[simp] theorem reconnectTrace_log (svc : Frame) (l : LogLevel) :
    reconnectTrace svc (Event.log l) = false := rfl

@[simp] theorem reconnectTrace_sleep (svc : Frame) (d : Nat) :
    reconnectTrace svc (Event.sleep d) = true := rfl

@[simp] theorem reconnectTrace_open (svc : Frame) :
    reconnectTrace svc Event.socketOpen = true := rfl

@[simp] theorem reconnectTrace_close (svc : Frame) :
    reconnectTrace svc Event.socketClose = true := rfl

@[simp] theorem reconnectTrace_term (svc : Frame) :
    reconnectTrace svc Event.contextTerm = false := rfl

@[simp] theorem reconnectTrace_hbSend (svc : Frame) (b : Bool) :
    reconnectTrace svc (Event.send heartbeatWire b) = false := by
  simp [reconnectTrace, isReadySend, isSleepEvent, isOpenEvent, isCloseEvent,
    heartbeatWire, readyWire]

@[simp] theorem reconnectTrace_readySend (svc : Frame) (b : Bool) :
    reconnectTrace svc (Event.send (readyWire svc) b) = true := by
  simp [reconnectTrace, isReadySend]

/-- C4: once the shutdown signal has been delivered, the next iteration
of `Receive` releases the socket (exactly one close event) and the
transport context and returns the Shutdown failure; the run ends there,
so no polling, dispatch or heartbeat sending follows, whatever the rest
of the script holds. -/
theorem c4_shutdown_cleanup (action : Message → Message) (s : LoopState) (inp : StepInput)
    (rest : List StepInput) (hsd : inp.shutdownReady = true)
    (hsock : s.w.socketLive = true) :
    receiveRun action s (inp :: rest) =
      (s, [Event.socketClose, Event.contextTerm, Event.log LogLevel.debug],
        RunResult.returned s.msg (some "Graceful shutdown")) := by
  simp [receiveRun, receiveIter, cleanup, hsd, hsock]

/-- Witness for `c4_shutdown_cleanup`: scenario S6, shutdown observed
while a long script is still pending. -/
theorem c4_shutdown_cleanup_witness :
    receiveRun echoAction sampleState
        ({ mkInput PollResult.timeout with shutdownReady := true }
          :: [mkInput PollResult.timeout, mkInput PollResult.timeout]) =
      (sampleState, [Event.socketClose, Event.contextTerm, Event.log LogLevel.debug],
        RunResult.returned [] (some "Graceful shutdown")) := by
  have h := c4_shutdown_cleanup echoAction sampleState
      { mkInput PollResult.timeout with shutdownReady := true }
      [mkInput PollResult.timeout, mkInput PollResult.timeout] rfl rfl
  rw [h]
  rfl

/-- C8: an inbound message of at least 3 frames whose command is
DISCONNECT closes the current socket exactly once and performs exactly
one reconnect sending one new READY (and no sleep), and the iteration
continues rather than returning to the caller. -/
theorem c8_disconnect_reconnect (action : Message → Message) (s : LoopState)
    (inp : StepInput) (m : Message)
    (hsd : inp.shutdownReady = false) (hp : inp.poll = PollResult.message m)
    (hlen : 3 ≤ m.length) (hcmd : frameAt m 2 = MD_DISCONNECT)
    (hsock : s.w.socketLive = true) :
    (receiveIter action s inp).2.2 = StepOutcome.cont
    ∧ (receiveIter action s inp).2.1.filter (reconnectTrace s.w.serviceName) =
        [Event.socketClose, Event.socketOpen,
         Event.send (readyWire s.w.serviceName) inp.sendFails] := by
  have h3 : ¬ m.length < 3 := by omega
  have hcr : ¬ frameAt m 2 = MD_REQUEST := by
    rw [hcmd]
    decide
  by_cases hb2 : inp.nowReconnect + s.w.heartbeat < inp.nowHbCheck
  · simp [receiveIter, hsd, hp, h3, hcr, hcmd, reconnect_events, hsock, hb2,
      MD_DISCONNECT, MD_REQUEST]
  · simp [receiveIter, hsd, hp, h3, hcr, hcmd, reconnect_events, hsock, hb2,
      MD_DISCONNECT, MD_REQUEST]

/-- Witness for `c8_disconnect_reconnect`: scenario S4. -/
theorem c8_disconnect_reconnect_witness :
    (receiveIter echoAction sampleState
        (mkInput (PollResult.message [[], MD_WORKER, MD_DISCONNECT]))).2.2 =
      StepOutcome.cont
    ∧ (receiveIter echoAction sampleState
        (mkInput (PollResult.message [[], MD_WORKER, MD_DISCONNECT]))).2.1.filter
          (reconnectTrace [115]) =
        [Event.socketClose, Event.socketOpen, Event.send (readyWire [115]) false] := by
  exact c8_disconnect_reconnect echoAction sampleState
    (mkInput (PollResult.message [[], MD_WORKER, MD_DISCONNECT]))
    [[], MD_WORKER, MD_DISCONNECT] rfl rfl (by decide) (by decide) rfl



@[simp] theorem hbMaybe_heartbeatAt (w : mdWorker) (a b : Nat) (f : Bool) :
    (heartbeatMaybe w a b f).1.heartbeatAt =
      if w.heartbeatAt < a then b + w.heartbeat else w.heartbeatAt := by
  unfold heartbeatMaybe
  split <;> simp_all

/-- C7: the heartbeat deadline is recomputed only when a handshake
READY or an outbound HEARTBEAT is actually sent (never by a REPLY or by
anything else), and an iteration that reaches the deadline check with
the deadline passed sends a HEARTBEAT and sets the deadline to the
current time plus `heartbeat_interval`. -/
theorem c7_heartbeat_deadline (action : Message → Message) (s : LoopState) (inp : StepInput) :
    ((receiveIter action s inp).1.w.heartbeatAt ≠ s.w.heartbeatAt →
        ((∃ b, Event.send heartbeatWire b ∈ (receiveIter action s inp).2.1)
            ∧ (receiveIter action s inp).1.w.heartbeatAt = inp.nowHbSet + s.w.heartbeat)
        ∨ ((∃ b, Event.send (readyWire s.w.serviceName) b ∈ (receiveIter action s inp).2.1)
            ∧ (receiveIter action s inp).1.w.heartbeatAt = inp.nowReconnect + s.w.heartbeat))
    ∧ (inp.shutdownReady = false → inp.poll = PollResult.timeout →
        0 < s.w.liveness - 1 → s.w.heartbeatAt < inp.nowHbCheck →
        Event.send heartbeatWire inp.sendFails ∈ (receiveIter action s inp).2.1
        ∧ (receiveIter action s inp).1.w.heartbeatAt = inp.nowHbSet + s.w.heartbeat) := by
  constructor
  · intro hne
    cases hsd : inp.shutdownReady with
    | true => exact absurd (by simp [receiveIter, hsd]) hne
    | false =>
      cases hp : inp.poll with
      | pollFailed => exact absurd (by simp [receiveIter, hsd, hp]) hne
      | timeout =>
        by_cases hl : s.w.liveness - 1 ≤ 0
        · by_cases hbc : inp.nowReconnect + s.w.heartbeat < inp.nowHbCheck
          · left
            refine ⟨⟨inp.sendFails, ?_⟩, ?_⟩
            · simp [receiveIter, hsd, hp, hl, hbc, reconnect_events]
            · simp [receiveIter, hsd, hp, hl, hbc]
          · right
            refine ⟨⟨inp.sendFails, ?_⟩, ?_⟩
            · simp [receiveIter, hsd, hp, hl, hbc, reconnect_events]
            · simp [receiveIter, hsd, hp, hl, hbc]
        · by_cases hbc : s.w.heartbeatAt < inp.nowHbCheck
          · left
            refine ⟨⟨inp.sendFails, ?_⟩, ?_⟩
            · simp [receiveIter, hsd, hp, hl, hbc]
            · simp [receiveIter, hsd, hp, hl, hbc]
          · exact absurd (by simp [receiveIter, hsd, hp, hl, hbc]) hne
      | message m =>
        by_cases h3 : m.length < 3
        · exact absurd (by simp [receiveIter, hsd, hp, h3]) hne
        · by_cases hc : frameAt m 2 = MD_REQUEST
          · by_cases h5 : m.length < 5
            · exact absurd (by simp [receiveIter, hsd, hp, h3, hc, h5]) hne
            · exact absurd (by simp [receiveIter, hsd, hp, h3, hc, h5, sendToBroker]) hne
          · by_cases hd : frameAt m 2 = MD_DISCONNECT
            · by_cases hbc : inp.nowReconnect + s.w.heartbeat < inp.nowHbCheck
              · left
                refine ⟨⟨inp.sendFails, ?_⟩, ?_⟩
                · simp [receiveIter, hsd, hp, h3, hc, hd, hbc, reconnect_events,
                    MD_DISCONNECT, MD_REQUEST]
                · simp [receiveIter, hsd, hp, h3, hc, hd, hbc,
                    MD_DISCONNECT, MD_REQUEST]
              · right
                refine ⟨⟨inp.sendFails, ?_⟩, ?_⟩
                · simp [receiveIter, hsd, hp, h3, hc, hd, hbc, reconnect_events,
                    MD_DISCONNECT, MD_REQUEST]
                · simp [receiveIter, hsd, hp, h3, hc, hd, hbc,
                    MD_DISCONNECT, MD_REQUEST]
            · by_cases hbc : s.w.heartbeatAt < inp.nowHbCheck
              · left
                refine ⟨⟨inp.sendFails, ?_⟩, ?_⟩
                · simp [receiveIter, hsd, hp, h3, hc, hd, hbc]
                · simp [receiveIter, hsd, hp, h3, hc, hd, hbc]
              · exact absurd (by simp [receiveIter, hsd, hp, h3, hc, hd, hbc]) hne
  · intro hsd hp hl hbc
    have hln : ¬ (s.w.liveness - 1 ≤ 0) := by omega
    constructor
    · simp [receiveIter, hsd, hp, hln, hbc]
    · simp [receiveIter, hsd, hp, hln, hbc]

/-- Witness for `c7_heartbeat_deadline`: a quiet poll past the deadline
sends a heartbeat and advances the deadline. -/
theorem c7_heartbeat_deadline_witness :
    Event.send heartbeatWire false ∈
      (receiveIter echoAction sampleState
        { mkInput PollResult.timeout with nowHbCheck := 4, nowHbSet := 5 }).2.1
    ∧ (receiveIter echoAction sampleState
        { mkInput PollResult.timeout with nowHbCheck := 4, nowHbSet := 5 }).1.w.heartbeatAt
      = 15 := by
  exact (c7_heartbeat_deadline echoAction sampleState
    { mkInput PollResult.timeout with nowHbCheck := 4, nowHbSet := 5 }).2
    rfl rfl (by decide) (by decide)



theorem hbMaybe_fst (w : mdWorker) (a b : Nat) (f : Bool) :
    (heartbeatMaybe w a b f).1 =
      if w.heartbeatAt < a then { w with heartbeatAt := b + w.heartbeat } else w := by
  unfold heartbeatMaybe
  split <;> rfl

/-- C5 (amended): a poll failure is logged at error severity and the
iteration continues without surfacing the error; a send failure is
silently discarded (the iteration's state, outcome and log output are
those of a successful send, only the recorded failure flag differs);
`Receive` returns a non-nil error only in the Shutdown case and
otherwise returns only a handler reply with a nil error. -/
theorem c5_error_policy (action : Message → Message) (s : LoopState) (inp : StepInput) :
    (inp.shutdownReady = false → inp.poll = PollResult.pollFailed →
        receiveIter action s inp = (s, [Event.log LogLevel.error], StepOutcome.cont))
    ∧ (∀ mr e, (receiveIter action s inp).2.2 = StepOutcome.ret mr e →
        (inp.shutdownReady = true ∧ e = some "Graceful shutdown")
        ∨ (e = none ∧ ∃ mm, inp.poll = PollResult.message mm ∧ mr = action (mm.drop 5)))
    ∧ ((receiveIter action s inp).2.1.map eraseFailed =
        (receiveIter action s { inp with sendFails := false }).2.1.map eraseFailed)
    ∧ (receiveIter action s inp).1 = (receiveIter action s { inp with sendFails := false }).1
    ∧ (receiveIter action s inp).2.2 =
        (receiveIter action s { inp with sendFails := false }).2.2 := by
  refine ⟨?_, ?_, ?_⟩
  · intro h1 h2
    simp [receiveIter, h1, h2]
  · intro mr e hret
    cases hsd : inp.shutdownReady with
    | true =>
      left
      simp [receiveIter, hsd] at hret
      exact ⟨rfl, hret.2.symm⟩
    | false =>
      cases hp : inp.poll with
      | pollFailed => simp [receiveIter, hsd, hp] at hret
      | timeout =>
        by_cases hl : s.w.liveness - 1 ≤ 0 <;>
          simp [receiveIter, hsd, hp, hl] at hret
      | message m =>
        by_cases h3 : m.length < 3
        · simp [receiveIter, hsd, hp, h3] at hret
        · by_cases hc : frameAt m 2 = MD_REQUEST
          · by_cases h5 : m.length < 5
            · simp [receiveIter, hsd, hp, h3, hc, h5] at hret
            · right
              simp [receiveIter, hsd, hp, h3, hc, h5, sendToBroker] at hret
              exact ⟨hret.2.symm, m, rfl, hret.1.symm⟩
          · by_cases hd : frameAt m 2 = MD_DISCONNECT
            · simp [receiveIter, hsd, hp, h3, hd, MD_DISCONNECT, MD_REQUEST] at hret
            · simp [receiveIter, hsd, hp, h3, hc, hd] at hret
  · cases hsd : inp.shutdownReady with
    | true => simp [receiveIter, hsd]
    | false =>
      cases hp : inp.poll with
      | pollFailed => simp [receiveIter, hsd, hp]
      | timeout =>
        by_cases hl : s.w.liveness - 1 ≤ 0
        · by_cases hbc : inp.nowReconnect + s.w.heartbeat < inp.nowHbCheck <;>
            simp [receiveIter, hsd, hp, hl, hbc, reconnect_events, eraseFailed, hbMaybe_fst]
        · by_cases hbc : s.w.heartbeatAt < inp.nowHbCheck <;>
            simp [receiveIter, hsd, hp, hl, hbc, eraseFailed, hbMaybe_fst]
      | message m =>
        by_cases h3 : m.length < 3
        · simp [receiveIter, hsd, hp, h3]
        · by_cases hc : frameAt m 2 = MD_REQUEST
          · by_cases h5 : m.length < 5
            · simp [receiveIter, hsd, hp, h3, hc, h5]
            · simp [receiveIter, hsd, hp, h3, hc, h5, sendToBroker, eraseFailed]
          · by_cases hd : frameAt m 2 = MD_DISCONNECT
            · by_cases hbc : inp.nowReconnect + s.w.heartbeat < inp.nowHbCheck <;>
                simp [receiveIter, hsd, hp, h3, hd, hbc, reconnect_events,
                  eraseFailed, hbMaybe_fst, MD_DISCONNECT, MD_REQUEST]
            · by_cases hbc : s.w.heartbeatAt < inp.nowHbCheck <;>
                simp [receiveIter, hsd, hp, h3, hc, hd, hbc, eraseFailed, hbMaybe_fst]

/-- Witness for `c5_error_policy`: the poll-failure clause at a
concrete input. -/
theorem c5_error_policy_witness :
    receiveIter echoAction sampleState (mkInput PollResult.pollFailed) =
      (sampleState, [Event.log LogLevel.error], StepOutcome.cont) := by
  exact (c5_error_policy echoAction sampleState (mkInput PollResult.pollFailed)).1 rfl rfl

/-- A quiet poll with the heartbeat deadline passed and a failing
`SendMessage`. -/
def c5FailInput : StepInput :=
  { mkInput PollResult.timeout with nowHbCheck := 1, sendFails := true }

/-- C5 counterexample: the heartbeat send fails, yet the iteration's
log output is exactly the routine debug line of `sendToBroker`,
identical to the run in which the send succeeds, and contains no
error-severity entry: the send failure is not logged (its error is
discarded), contradicting the claim that a send failure is logged. -/
theorem c5_send_failure_counterexample :
    (receiveIter echoAction sampleState c5FailInput).2.1 =
      [Event.send heartbeatWire true, Event.log LogLevel.debug]
    ∧ (receiveIter echoAction sampleState
        { c5FailInput with sendFails := false }).2.1 =
      [Event.send heartbeatWire false, Event.log LogLevel.debug]
    ∧ (receiveIter echoAction sampleState c5FailInput).2.1.filter isErrorLog = [] := by
  decide



/-- A silent poll while more than one liveness credit remains: only the
counter is decremented; no sleep, close, open or READY occurs, every
other field is untouched, and the loop continues. -/
theorem timeout_step_quiet (action : Message → Message) (s : LoopState) (inp : StepInput)
    (hsd : inp.shutdownReady = false) (hp : inp.poll = PollResult.timeout)
    (hl : 0 < s.w.liveness - 1) :
    (receiveIter action s inp).1.w.liveness = s.w.liveness - 1
    ∧ (receiveIter action s inp).1.w.maxLivenessCount = s.w.maxLivenessCount
    ∧ (receiveIter action s inp).1.w.socketLive = s.w.socketLive
    ∧ (receiveIter action s inp).1.w.serviceName = s.w.serviceName
    ∧ (receiveIter action s inp).1.w.reconnect = s.w.reconnect
    ∧ (receiveIter action s inp).2.1.filter (reconnectTrace s.w.serviceName) = []
    ∧ (receiveIter action s inp).2.2 = StepOutcome.cont := by
  have hln : ¬ (s.w.liveness - 1 ≤ 0) := by omega
  by_cases hbc : s.w.heartbeatAt < inp.nowHbCheck <;>
    simp [receiveIter, hsd, hp, hln, hbc]

/-- A silent poll that exhausts the last liveness credit: the worker
logs a warning, sleeps `reconnect_delay`, closes the socket and
reconnects, sending one new READY. -/
theorem timeout_step_reconnect (action : Message → Message) (s : LoopState) (inp : StepInput)
    (hsd : inp.shutdownReady = false) (hp : inp.poll = PollResult.timeout)
    (hl : s.w.liveness - 1 ≤ 0) (hsock : s.w.socketLive = true) :
    (receiveIter action s inp).2.2 = StepOutcome.cont
    ∧ (receiveIter action s inp).2.1.filter (reconnectTrace s.w.serviceName) =
        [Event.sleep s.w.reconnect, Event.socketClose, Event.socketOpen,
         Event.send (readyWire s.w.serviceName) inp.sendFails] := by
  by_cases hbc : inp.nowReconnect + s.w.heartbeat < inp.nowHbCheck <;>
    simp [receiveIter, hsd, hp, hl, hbc, reconnect_events, hsock]

/-- Running any number of silent polls strictly smaller than the
current liveness credit: the counter just counts down and nothing that
witnesses a reconnect happens. -/
theorem run_quiet (action : Message → Message) :
    ∀ (inps : List StepInput) (s : LoopState),
      (∀ i ∈ inps, i.shutdownReady = false ∧ i.poll = PollResult.timeout) →
      ((inps.length : Int) < s.w.liveness) →
      (receiveRun action s inps).1.w.liveness = s.w.liveness - inps.length
      ∧ (receiveRun action s inps).1.w.maxLivenessCount = s.w.maxLivenessCount
      ∧ (receiveRun action s inps).1.w.socketLive = s.w.socketLive
      ∧ (receiveRun action s inps).1.w.serviceName = s.w.serviceName
      ∧ (receiveRun action s inps).1.w.reconnect = s.w.reconnect
      ∧ (receiveRun action s inps).2.1.filter (reconnectTrace s.w.serviceName) = []
      ∧ (receiveRun action s inps).2.2 = RunResult.running := by
  intro inps
  induction inps with
  | nil =>
    intro s _ _
    simp [receiveRun]
  | cons inp rest ih =>
    intro s hall hlt
    obtain ⟨hsd, hp⟩ := hall inp (List.mem_cons_self inp rest)
    have hlen : (rest.length : Int) + 1 < s.w.liveness := by
      have : ((inp :: rest).length : Int) = (rest.length : Int) + 1 := by
        simp
      omega
    have hl : 0 < s.w.liveness - 1 := by omega
    obtain ⟨q1, q2, q3, q4, q5, q6, q7⟩ := timeout_step_quiet action s inp hsd hp hl
    have hrest := ih (receiveIter action s inp).1
      (fun i hi => hall i (List.mem_cons_of_mem inp hi))
      (by rw [q1]; omega)
    obtain ⟨r1, r2, r3, r4, r5, r6, r7⟩ := hrest
    rw [q1] at r1
    rw [q2] at r2
    rw [q3] at r3
    rw [q4] at r4
    rw [q4] at r6
    rw [q5] at r5
    simp only [receiveRun, q7]
    refine ⟨?_, r2, r3, r4, r5, ?_, r7⟩
    · rw [r1]
      have hc : ((inp :: rest).length : Int) = (rest.length : Int) + 1 := by simp
      rw [hc]
      omega
    · rw [List.filter_append, q6, r6, List.nil_append]

/-- Running exactly as many silent polls as the current liveness
credit: the last poll triggers exactly one sleep of `reconnect_delay`
followed by one close, one open and one new READY. -/
theorem run_exact (action : Message → Message) :
    ∀ (inps : List StepInput) (s : LoopState),
      (∀ i ∈ inps, i.shutdownReady = false ∧ i.poll = PollResult.timeout) →
      ((inps.length : Int) = s.w.liveness) →
      (1 ≤ s.w.liveness) → (s.w.socketLive = true) →
      ∃ b, (receiveRun action s inps).2.1.filter (reconnectTrace s.w.serviceName) =
        [Event.sleep s.w.reconnect, Event.socketClose, Event.socketOpen,
         Event.send (readyWire s.w.serviceName) b] := by
  intro inps
  induction inps with
  | nil =>
    intro s _ hlen hpos _
    simp at hlen
    omega
  | cons inp rest ih =>
    intro s hall hlen hpos hsock
    obtain ⟨hsd, hp⟩ := hall inp (List.mem_cons_self inp rest)
    have hlen1 : (rest.length : Int) + 1 = s.w.liveness := by
      have : ((inp :: rest).length : Int) = (rest.length : Int) + 1 := by simp
      omega
    by_cases hone : s.w.liveness = 1
    · have hrest : rest = [] := by
        have : (rest.length : Int) = 0 := by omega
        simpa using this
      subst hrest
      have hl : s.w.liveness - 1 ≤ 0 := by omega
      obtain ⟨t1, t2⟩ := timeout_step_reconnect action s inp hsd hp hl hsock
      refine ⟨inp.sendFails, ?_⟩
      simp only [receiveRun, t1]
      rw [List.filter_append, t2]
      simp [receiveRun]
    · have hl : 0 < s.w.liveness - 1 := by omega
      obtain ⟨q1, q2, q3, q4, q5, q6, q7⟩ := timeout_step_quiet action s inp hsd hp hl
      have hrest := ih (receiveIter action s inp).1
        (fun i hi => hall i (List.mem_cons_of_mem inp hi))
        (by rw [q1]; omega) (by rw [q1]; omega) (by rw [q3, hsock])
      rw [q4, q5] at hrest
      obtain ⟨b, hb⟩ := hrest
      refine ⟨b, ?_⟩
      simp only [receiveRun, q7]
      rw [List.filter_append, q6, List.nil_append, hb]

/-- C3: starting from a fresh connect, strictly fewer than
`max_liveness` consecutive empty polls only count the liveness down,
with no sleep, socket close, socket open or READY; exactly
`max_liveness` consecutive empty polls produce exactly one sleep of
`reconnect_delay` followed by exactly one reconnect (one close, one
open, one new READY). -/
theorem c3_silent_polls (action : Message → Message) (s : LoopState) (inps : List StepInput)
    (hall : ∀ i ∈ inps, i.shutdownReady = false ∧ i.poll = PollResult.timeout)
    (hfresh : s.w.liveness = s.w.maxLivenessCount)
    (hsock : s.w.socketLive = true)
    (hmax : 1 ≤ s.w.maxLivenessCount) :
    ((inps.length : Int) < s.w.maxLivenessCount →
        (receiveRun action s inps).2.1.filter (reconnectTrace s.w.serviceName) = []
        ∧ (receiveRun action s inps).1.w.liveness = s.w.maxLivenessCount - inps.length
        ∧ (receiveRun action s inps).2.2 = RunResult.running)
    ∧ ((inps.length : Int) = s.w.maxLivenessCount →
        ∃ b, (receiveRun action s inps).2.1.filter (reconnectTrace s.w.serviceName) =
          [Event.sleep s.w.reconnect, Event.socketClose, Event.socketOpen,
           Event.send (readyWire s.w.serviceName) b]) := by
  constructor
  · intro hlt
    obtain ⟨r1, _, _, _, _, r6, r7⟩ :=
      run_quiet action inps s hall (by omega)
    exact ⟨r6, by rw [r1, hfresh], r7⟩
  · intro heq
    exact run_exact action inps s hall (by omega) (by omega) hsock

/-- Witness for `c3_silent_polls`: scenario S3-style run with
`max_liveness = 3` and three empty polls. -/
theorem c3_silent_polls_witness :
    ∃ b, (receiveRun echoAction sampleState
        [mkInput PollResult.timeout, mkInput PollResult.timeout,
         mkInput PollResult.timeout]).2.1.filter (reconnectTrace [115]) =
      [Event.sleep 5, Event.socketClose, Event.socketOpen,
       Event.send (readyWire [115]) b] := by
  exact (c3_silent_polls echoAction sampleState
    [mkInput PollResult.timeout, mkInput PollResult.timeout, mkInput PollResult.timeout]
    (by decide) rfl rfl (by decide)).2 (by decide)



/-! Facts about the READY-discipline scanner. -/

@[simp] theorem scanStep_none (svc : Frame) (e : Event) : scanStep svc none e = none := by
  cases e <;> rfl

@[simp] theorem scanStep_false_log (svc : Frame) (l : LogLevel) :
    scanStep svc (some false) (Event.log l) = some false := rfl

@[simp] theorem scanStep_false_sleep (svc : Frame) (d : Nat) :
    scanStep svc (some false) (Event.sleep d) = some false := rfl

@[simp] theorem scanStep_false_close (svc : Frame) :
    scanStep svc (some false) Event.socketClose = some false := rfl

@[simp] theorem scanStep_false_term (svc : Frame) :
    scanStep svc (some false) Event.contextTerm = some false := rfl

@[simp] theorem scanStep_false_open (svc : Frame) :
    scanStep svc (some false) Event.socketOpen = some true := rfl

@[simp] theorem scanStep_true_log (svc : Frame) (l : LogLevel) :
    scanStep svc (some true) (Event.log l) = some true := rfl

@[simp] theorem scanStep_false_send_wire (svc : Frame) (f : Message) (b : Bool) :
    scanStep svc (some false) (Event.send f b) =
      if f == readyWire svc then none else some false := rfl

@[simp] theorem scanStep_true_send_wire (svc : Frame) (f : Message) (b : Bool) :
    scanStep svc (some true) (Event.send f b) =
      if f == readyWire svc then some false else none := rfl

@[simp] theorem hbWire_beq_ready (svc : Frame) :
    (heartbeatWire == readyWire svc) = false := by
  simp [heartbeatWire, readyWire]

@[simp] theorem replyWire_beq_ready (svc rt : Frame) (out : Message) :
    (([] :: MD_WORKER :: MD_REPLY :: rt :: [] :: out : Message) == readyWire svc) = false := by
  simp [readyWire, MD_REPLY, MD_READY]

/-- One iteration keeps the READY discipline: its events scan from a
clean state back to a clean state, open one socket exactly when they
send one READY, and the service name never changes. -/
theorem step_ready_ok (action : Message → Message) (s : LoopState) (inp : StepInput) :
    List.foldl (scanStep s.w.serviceName) (some false) (receiveIter action s inp).2.1 = some false
    ∧ countReady s.w.serviceName (receiveIter action s inp).2.1 =
        countOpens (receiveIter action s inp).2.1
    ∧ (receiveIter action s inp).1.w.serviceName = s.w.serviceName := by
  cases hsd : inp.shutdownReady with
  | true =>
    by_cases hsock : s.w.socketLive <;>
      simp [receiveIter, cleanup, hsd, hsock, countReady, countOpens, isReadySend, isOpenEvent]
  | false =>
    cases hp : inp.poll with
    | pollFailed =>
      simp [receiveIter, hsd, hp, countReady, countOpens, isReadySend, isOpenEvent]
    | timeout =>
      by_cases hl : s.w.liveness - 1 ≤ 0
      · by_cases hsock : s.w.socketLive <;>
          by_cases hbc : inp.nowReconnect + s.w.heartbeat < inp.nowHbCheck <;>
          simp [receiveIter, hsd, hp, hl, hsock, hbc, reconnect_events,
            countReady, countOpens, isReadySend, isOpenEvent]
      · by_cases hbc : s.w.heartbeatAt < inp.nowHbCheck <;>
          simp [receiveIter, hsd, hp, hl, hbc, countReady, countOpens, isReadySend, isOpenEvent]
    | message m =>
      by_cases h3 : m.length < 3
      · simp [receiveIter, hsd, hp, h3, countReady, countOpens, isReadySend, isOpenEvent]
      · by_cases hc : frameAt m 2 = MD_REQUEST
        · by_cases h5 : m.length < 5
          · simp [receiveIter, hsd, hp, h3, hc, h5, countReady, countOpens]
          · simp [receiveIter, hsd, hp, h3, hc, h5, sendToBroker,
              countReady, countOpens, isReadySend, isOpenEvent]
        · by_cases hd : frameAt m 2 = MD_DISCONNECT
          · by_cases hsock : s.w.socketLive <;>
              by_cases hbc : inp.nowReconnect + s.w.heartbeat < inp.nowHbCheck <;>
              simp [receiveIter, hsd, hp, h3, hd, hsock, hbc, reconnect_events,
                countReady, countOpens, isReadySend, isOpenEvent, MD_DISCONNECT, MD_REQUEST]
          · by_cases hbc : s.w.heartbeatAt < inp.nowHbCheck <;>
              simp [receiveIter, hsd, hp, h3, hc, hd, hbc,
                countReady, countOpens, isReadySend, isOpenEvent]

/-- A whole run keeps the READY discipline. -/
theorem run_ready_ok (action : Message → Message) :
    ∀ (inps : List StepInput) (s : LoopState),
      List.foldl (scanStep s.w.serviceName) (some false) (receiveRun action s inps).2.1 =
        some false
      ∧ countReady s.w.serviceName (receiveRun action s inps).2.1 =
          countOpens (receiveRun action s inps).2.1
      ∧ (receiveRun action s inps).1.w.serviceName = s.w.serviceName := by
  intro inps
  induction inps with
  | nil =>
    intro s
    simp [receiveRun, countReady, countOpens]
  | cons inp rest ih =>
    intro s
    obtain ⟨p1, p2, p3⟩ := step_ready_ok action s inp
    cases hout : (receiveIter action s inp).2.2 with
    | ret mm e =>
      simp only [receiveRun, hout]
      exact ⟨p1, p2, p3⟩
    | panicked =>
      simp only [receiveRun, hout]
      exact ⟨p1, p2, p3⟩
    | cont =>
      obtain ⟨r1, r2, r3⟩ := ih (receiveIter action s inp).1
      rw [p3] at r1 r2 r3
      simp only [receiveRun, hout]
      refine ⟨?_, ?_, r3⟩
      · rw [List.foldl_append, p1, r1]
      · simp only [countReady, countOpens] at p2 r2 ⊢
        rw [List.countP_append, List.countP_append, p2, r2]

/-- C9: on every socket the worker opens, one READY carrying the
service name is sent immediately after the open and before any other
outbound frame on that socket, and READY is sent nowhere else; over the
whole execution (construction plus any script) the number of READY
sends equals the number of socket opens, i.e. of successful
reconnects. -/
theorem c9_ready_per_socket (svc : Frame) (hb rdel pint : Nat) (mx : Int) (now0 : Nat)
    (sf : Bool) (action : Message → Message) (inps : List StepInput) :
    countReady svc (workerTrace svc hb rdel pint mx now0 sf action inps) =
      countOpens (workerTrace svc hb rdel pint mx now0 sf action inps)
    ∧ readyDiscipline svc (workerTrace svc hb rdel pint mx now0 sf action inps) = true := by
  obtain ⟨r1, r2, r3⟩ := run_ready_ok action inps
    { w := (newWorker svc hb rdel pint mx now0 sf).1, msg := [] }
  have hsvc : ({ w := (newWorker svc hb rdel pint mx now0 sf).1, msg := [] } :
      LoopState).w.serviceName = svc := rfl
  rw [hsvc] at r1 r2
  have h0scan : List.foldl (scanStep svc) (some false)
      (newWorker svc hb rdel pint mx now0 sf).2 = some false := by
    simp [newWorker, reconnect_events]
  have h0cnt : countReady svc (newWorker svc hb rdel pint mx now0 sf).2 =
      countOpens (newWorker svc hb rdel pint mx now0 sf).2 := by
    simp [newWorker, reconnect_events, countReady, countOpens, isReadySend, isOpenEvent]
  constructor
  · simp only [workerTrace, countReady, countOpens, List.countP_append]
    simp only [countReady, countOpens] at h0cnt r2
    rw [h0cnt, r2]
  · simp only [workerTrace, readyDiscipline, List.foldl_append, h0scan, r1]
    rfl



/-!
Shutdown-signal delivery.  The source creates the shutdown channel with
`make(chan bool)` — a Go channel of capacity zero — writes it with a
plain send in `Shutdown` and reads it with a nonblocking
`select`/`default` at the top of each `Receive` iteration.  The model
below follows Go channel semantics for this single-producer /
single-consumer pair: a send completes immediately only if buffer space
is free, otherwise the sender blocks until a receive pairs with it, and
a `select` with a `default` arm takes the receive case exactly when a
value is buffered or a sender is blocked on the channel.
-/

/-- Capacity of the shutdown channel in the source: `make(chan bool)`
is unbuffered. -/
def shutdownChanCapacity : Nat := 0

/-- State of the shutdown signalling pair: how many values sit in the
channel buffer, whether the `Shutdown` caller is blocked in its send,
whether the `Shutdown` call has returned, and whether the receive loop
has consumed the signal. -/
structure SigState where
  buffered : Nat
  senderBlocked : Bool
  senderReturned : Bool
  consumerGotSignal : Bool
deriving DecidableEq, Repr

/-- The producer's step, `w.shutdown <- true`: with free buffer space
the value is deposited and the call returns at once; on a full (or
zero-capacity) channel the caller blocks awaiting a rendezvous. -/
def producerSend (cap : Nat) (st : SigState) : SigState :=
  if st.buffered < cap then
    { st with buffered := st.buffered + 1, senderReturned := true }
  else
    { st with senderBlocked := true }

/-- The consumer's step, the nonblocking `select { case <-w.shutdown:
... default: ... }` at the top of an iteration: it takes the shutdown
case when a value is buffered or a sender is blocked (completing the
rendezvous and releasing the sender), and otherwise falls through to
the default arm. -/
def consumerCheck (st : SigState) : SigState :=
  if 0 < st.buffered then
    { st with buffered := st.buffered - 1, consumerGotSignal := true }
  else if st.senderBlocked then
    { st with senderBlocked := false, senderReturned := true, consumerGotSignal := true }
  else
    st

/-- C10 counterexample: with the consumer away from the check point and
the channel empty, `Shutdown`'s send on the source's zero-capacity
channel does not complete — the call has not returned after its send
step — whereas on a buffered single-slot channel (capacity 1) it would
have; the signal does not behave as a buffered single-slot channel. -/
theorem c10_unbuffered_counterexample :
    (producerSend shutdownChanCapacity
        { buffered := 0, senderBlocked := false, senderReturned := false,
          consumerGotSignal := false }).senderReturned = false
    ∧ (producerSend 1
        { buffered := 0, senderBlocked := false, senderReturned := false,
          consumerGotSignal := false }).senderReturned = true := by
  decide

/-- C10 (amended): `Shutdown`'s send on the unbuffered channel does not
complete by itself when the consumer has not reached the check point;
it blocks until the receive loop's next nonblocking select, which then
consumes the signal and releases the sender in the same step — so no
wakeup is missed even though the producer signalled first, and
`Shutdown` returns at the moment of delivery without awaiting the
loop's cleanup or exit. -/
theorem c10_shutdown_delivery (st : SigState) (h : st.buffered = 0) :
    (producerSend shutdownChanCapacity st).senderReturned = st.senderReturned
    ∧ (consumerCheck (producerSend shutdownChanCapacity st)).consumerGotSignal = true
    ∧ (consumerCheck (producerSend shutdownChanCapacity st)).senderReturned = true := by
  refine ⟨?_, ?_, ?_⟩ <;>
    simp [producerSend, consumerCheck, shutdownChanCapacity, h]

/-- Witness for `c10_shutdown_delivery` at the initial state. -/
theorem c10_shutdown_delivery_witness :
    (producerSend shutdownChanCapacity
        { buffered := 0, senderBlocked := false, senderReturned := false,
          consumerGotSignal := false }).senderReturned = false
    ∧ (consumerCheck (producerSend shutdownChanCapacity
        { buffered := 0, senderBlocked := false, senderReturned := false,
          consumerGotSignal := false })).consumerGotSignal = true := by
  have h := c10_shutdown_delivery
    { buffered := 0, senderBlocked := false, senderReturned := false,
      consumerGotSignal := false } rfl
  exact ⟨h.1, h.2.1⟩


end MajordomoWorker
